import Mathlib

/-!
Shallow embedding of the `whats-for-lunch` service (Rust) for specification
verification.

Source layout:
* `src/lunch.rs` — `Building` (strum `Display`, kebab-case with two overrides),
  `get_lunch`, `scrape_lunch`, `lunch_to_markdown`, `Lunch`.
* `src/main.rs` — HTTP handler `lunch::get_lunch`, `Building` (strum
  `EnumString`, every variant `ascii_case_insensitive`), `building_to_url`,
  plus copies of `scrape_lunch` / `lunch_to_markdown` identical to the ones in
  `lunch.rs` (the `lunch.rs` copy wraps the result string in the `Markdown`
  newtype; we model `Markdown` by its underlying `String`).
* `src/mattermost.rs` — `MattermostCommandResponse`, `MattermostResponseType`.

Modelling conventions:
* HTML documents are modelled as node trees (`Node`); `Html::parse_document`
  is total (error-recovering), so fetched bodies are represented directly by
  their parse trees.
* A Rust panic (`Option::unwrap` on `None`) is modelled by `PanicOr.panic`
  carrying the standard unwrap panic message; the Rust functions involved have
  no error-return channel.
* `reqwest::get(url).await?.text().await?` and
  `surf::get(url).recv_string().await?` return the response body for any
  received HTTP response and fail only on transport-level errors; neither
  inspects the HTTP status code.  The network is modelled as a function from
  the request URL to a `FetchOutcome`, and each embedded entry point also
  returns the number of fetches it performed.
-/

/-! ## Rust string trimming (`str::trim`, Unicode `White_Space`) -/

/-- Unicode `White_Space` property, the predicate used by Rust
`char::is_whitespace` / `str::trim`. -/
def isRustWhitespace (c : Char) : Bool :=
  let n := c.toNat
  (decide (9 ≤ n) && decide (n ≤ 13)) || decide (n = 32) || decide (n = 0x85) ||
  decide (n = 0xA0) || decide (n = 0x1680) ||
  (decide (0x2000 ≤ n) && decide (n ≤ 0x200A)) ||
  decide (n = 0x2028) || decide (n = 0x2029) || decide (n = 0x202F) ||
  decide (n = 0x205F) || decide (n = 0x3000)

/-- Rust `str::trim` on the character list: strip leading then trailing
whitespace (`trim_start` then `trim_end`). -/
def trimChars (l : List Char) : List Char :=
  List.rdropWhile isRustWhitespace (List.dropWhile isRustWhitespace l)

/-- Rust `str::trim`. -/
def rustTrim (s : String) : String :=
  String.mk (trimChars s.data)

/-! ## HTML document trees and the CSS selectors used by `scrape_lunch` -/

mutual
/-- A parsed HTML node: an element (tag, `class` attribute values, children in
document order, text nodes included) or a text node. -/
inductive Node where
  | elem (tag : String) (classes : List String) (children : NodeList)
  | text (s : String)

/-- Children of an element, in document order. -/
inductive NodeList where
  | nil
  | cons (hd : Node) (tl : NodeList)
end

/-- Whether a node is an element (only elements count for `:nth-child` and
only elements can match a selector). -/
def Node.isElem : Node → Bool
  | .elem _ _ _ => true
  | .text _ => false

mutual
/-- First text node of the subtree in document (depth-first) order — the first
item of scraper's `ElementRef::text()` iterator. -/
def firstText : Node → Option String
  | .text s => some s
  | .elem _ _ ch => firstTextL ch

/-- The `firstText` search over a child list. -/
def firstTextL : NodeList → Option String
  | .nil => none
  | .cons c cs =>
    match firstText c with
    | some s => some s
    | none => firstTextL cs
end

/-- Whether an element with this tag, class list and 1-based position among
its parent's element children is matched by `div.menu-row:nth-child(k)`. -/
def isMenuRowDivAt (tag : String) (classes : List String) (i k : Nat) : Bool :=
  tag == "div" && classes.contains "menu-row" && i == k

mutual
/-- All elements of the tree matched by the CSS selector
`div.menu-row:nth-child(k) > div:nth-child(2)`, in document (depth-first
pre-) order — the order in which scraper's `Html::select` yields matches.
`i` is the node's 1-based position among its parent's element children (`0`
for the root, which has no parent in the tree and hence never matches
`:nth-child`); `pm` records whether the parent matches
`div.menu-row:nth-child(k)`. -/
def selMatches (k : Nat) : Node → Nat → Bool → List Node
  | .text _, _, _ => []
  | .elem tag classes ch, i, pm =>
    (if pm && (tag == "div") && (i == 2) then [Node.elem tag classes ch] else []) ++
      selMatchesL k ch 1 (isMenuRowDivAt tag classes i k)

/-- `selMatches` over a child list; `j` is the element-child index of the next
element (text nodes do not consume an index). -/
def selMatchesL (k : Nat) : NodeList → Nat → Bool → List Node
  | .nil, _, _ => []
  | .cons c cs, j, pm =>
    selMatches k c j pm ++ selMatchesL k cs (if c.isElem then j + 1 else j) pm
end

/-- `html.select(&sel).next()` for the selector
`div.menu-row:nth-child(k) > div:nth-child(2)`: the first match in document
order, if any. -/
def selectFirst (k : Nat) (root : Node) : Option Node :=
  (selMatches k root 0 false).head?

/-! ## `Lunch`, panics, and `scrape_lunch` -/

/-- The `Lunch` record of `src/lunch.rs` / `src/main.rs`. -/
structure Lunch where
  varm_ret : String
  vegetar : String
  salat : String
deriving DecidableEq, Repr

/-- Result of running Rust code that may panic: either a normal return value
or a panic with its message.  There is no error-return channel. -/
inductive PanicOr (α : Type) where
  | panic (msg : String)
  | ok (val : α)
deriving DecidableEq, Repr

/-- The message of the panic raised by `Option::unwrap` on `None`. -/
def unwrapMsg : String := "called Option::unwrap() on a None value"

/-- Rust `Option::unwrap`: panics on `None`. -/
def unwrapOpt {α : Type} : Option α → PanicOr α
  | none => .panic unwrapMsg
  | some a => .ok a

/-- Sequencing of possibly-panicking computations (a panic aborts the rest). -/
def PanicOr.bind {α β : Type} : PanicOr α → (α → PanicOr β) → PanicOr β
  | .panic m, _ => .panic m
  | .ok a, f => f a

/-- `scrape_lunch` (`src/lunch.rs:31-66`, identical in `src/main.rs:158-194`):
select the 2nd cell of `div.menu-row:nth-child(2)`, `(4)`, `(6)`, unwrap the
first match and its first text run (panicking if absent), and build the
`Lunch` record from the trimmed texts. -/
def scrape_lunch (html : Node) : PanicOr Lunch :=
  PanicOr.bind (unwrapOpt (selectFirst 2 html)) fun varmNode =>
  PanicOr.bind (unwrapOpt (firstText varmNode)) fun varm_ret =>
  PanicOr.bind (unwrapOpt (selectFirst 4 html)) fun vegetarNode =>
  PanicOr.bind (unwrapOpt (firstText vegetarNode)) fun vegetar =>
  PanicOr.bind (unwrapOpt (selectFirst 6 html)) fun salatNode =>
  PanicOr.bind (unwrapOpt (firstText salatNode)) fun salat =>
  PanicOr.ok { varm_ret := rustTrim varm_ret
             , vegetar := rustTrim vegetar
             , salat := rustTrim salat }

/-- `lunch_to_markdown` (`src/lunch.rs:68-82`, identical in
`src/main.rs:196-208`): join of the eight fragments with the empty
separator, i.e. their concatenation. -/
def lunch_to_markdown (lunch : Lunch) : String :=
  "##### Varm ret\n  " ++ lunch.varm_ret ++ "\n" ++
  "##### Vegetar\n  " ++ lunch.vegetar ++ "\n" ++
  "##### Salat\n  " ++ lunch.salat

/-! ## Fixture pages -/

/-- A `div` cell whose content is a single text node. -/
def cell (txt : String) : Node :=
  .elem "div" [] (.cons (.text txt) .nil)

/-- A `div.menu-row` with a label cell (1st element child) and a dish cell
(2nd element child). -/
def menuRow (label dish : String) : Node :=
  .elem "div" ["menu-row"] (.cons (cell label) (.cons (cell dish) .nil))

/-- A page whose menu container holds the six given rows, mirroring the
structure the selectors address (`html > body > div.menu > rows`). -/
def pageOfRows (r1 r2 r3 r4 r5 r6 : Node) : Node :=
  .elem "html" []
    (.cons (.elem "head" [] .nil)
      (.cons (.elem "body" []
        (.cons (.elem "div" ["menu"]
          (.cons r1 (.cons r2 (.cons r3 (.cons r4 (.cons r5 (.cons r6 .nil)))))))
          .nil))
        .nil))

/-- Fixture mirroring `resources/test/aastvej.html`: dishes in the 2nd cells
of the 2nd, 4th and 6th menu rows, with surrounding whitespace. -/
def fixturePage : Node :=
  pageOfRows
    (menuRow "Varm ret" "uge 1")
    (menuRow "Mandag" "\n  Braiseret svinekæber med rodfrugter  ")
    (menuRow "Vegetar" "uge 1")
    (menuRow "Mandag" "\n  Gnocchi med ratatouille.  ")
    (menuRow "Salat" "uge 1")
    (menuRow "Mandag" "\n  Romaine salat med bagte blommer, hvedekerner, løg og salatost.  ")

/-- The `Lunch` value scraped from `fixturePage`. -/
def fixtureLunch : Lunch :=
  { varm_ret := "Braiseret svinekæber med rodfrugter"
  , vegetar := "Gnocchi med ratatouille."
  , salat := "Romaine salat med bagte blommer, hvedekerner, løg og salatost." }

/-- A page whose 2nd menu row has no 2nd cell: the selector
`div.menu-row:nth-child(2) > div:nth-child(2)` matches nothing. -/
def pageMissing2 : Node :=
  pageOfRows
    (menuRow "Varm ret" "uge 1")
    (.elem "div" ["menu-row"] (.cons (cell "Mandag") .nil))
    (menuRow "Vegetar" "uge 1")
    (menuRow "Mandag" "Gnocchi med ratatouille.")
    (menuRow "Salat" "uge 1")
    (menuRow "Mandag" "Romaine salat.")

/-- A page whose 4th menu row has no 2nd cell. -/
def pageMissing4 : Node :=
  pageOfRows
    (menuRow "Varm ret" "uge 1")
    (menuRow "Mandag" "Braiseret svinekæber med rodfrugter")
    (menuRow "Vegetar" "uge 1")
    (.elem "div" ["menu-row"] (.cons (cell "Mandag") .nil))
    (menuRow "Salat" "uge 1")
    (menuRow "Mandag" "Romaine salat.")

/-- A page whose 6th menu row has no 2nd cell. -/
def pageMissing6 : Node :=
  pageOfRows
    (menuRow "Varm ret" "uge 1")
    (menuRow "Mandag" "Braiseret svinekæber med rodfrugter")
    (menuRow "Vegetar" "uge 1")
    (menuRow "Mandag" "Gnocchi med ratatouille.")
    (menuRow "Salat" "uge 1")
    (.elem "div" ["menu-row"] (.cons (cell "Mandag") .nil))

/-- A page whose 2nd menu row's 2nd cell is present but holds no text node. -/
def pageNoText2 : Node :=
  pageOfRows
    (menuRow "Varm ret" "uge 1")
    (.elem "div" ["menu-row"]
      (.cons (cell "Mandag") (.cons (.elem "div" [] .nil) .nil)))
    (menuRow "Vegetar" "uge 1")
    (menuRow "Mandag" "Gnocchi med ratatouille.")
    (menuRow "Salat" "uge 1")
    (menuRow "Mandag" "Romaine salat.")

/-- A page whose three addressed cells hold whitespace-only text. -/
def pageWhitespace : Node :=
  pageOfRows
    (menuRow "Varm ret" "uge 1")
    (menuRow "Mandag" "  \n\t ")
    (menuRow "Vegetar" "uge 1")
    (menuRow "Mandag" " ")
    (menuRow "Salat" "uge 1")
    (menuRow "Mandag" "\n\n")

/-! ## The building registry (`src/main.rs:83-113`, `src/lunch.rs:7-19`) -/

/-- The closed building enumeration (same variants in `src/lunch.rs` and in
`src/main.rs`). -/
inductive Building where
  | Aastvej
  | Multihuset
  | Havremarken
  | KIRKBI
  | Midtown
  | Kornmarken
  | Oestergade
deriving DecidableEq, Repr

/-- The Rust variant identifier of each building, as written in the source;
this is what strum's derived `FromStr` matches external text against. -/
def variantName : Building → String
  | .Aastvej => "Aastvej"
  | .Multihuset => "Multihuset"
  | .Havremarken => "Havremarken"
  | .KIRKBI => "KIRKBI"
  | .Midtown => "Midtown"
  | .Kornmarken => "Kornmarken"
  | .Oestergade => "Oestergade"

/-- ASCII lower-casing of one character (`u8::to_ascii_lowercase`). -/
def asciiLowerChar (c : Char) : Char :=
  if 65 ≤ c.toNat ∧ c.toNat ≤ 90 then Char.ofNat (c.toNat + 32) else c

/-- ASCII lower-casing of a string. -/
def asciiLower (s : String) : String :=
  String.mk (s.data.map asciiLowerChar)

/-- Rust `str::eq_ignore_ascii_case`, the comparison strum uses for variants
marked `ascii_case_insensitive`. -/
def eqIgnoreAsciiCase (a b : String) : Bool :=
  asciiLower a == asciiLower b

/-- `Building::from_str` as derived by strum `EnumString` in `src/main.rs`:
the input is compared against each variant identifier in declaration order,
ASCII-case-insensitively (every variant is `ascii_case_insensitive`). -/
def Building.from_str (s : String) : Option Building :=
  if eqIgnoreAsciiCase s "Aastvej" then some .Aastvej
  else if eqIgnoreAsciiCase s "Multihuset" then some .Multihuset
  else if eqIgnoreAsciiCase s "Havremarken" then some .Havremarken
  else if eqIgnoreAsciiCase s "KIRKBI" then some .KIRKBI
  else if eqIgnoreAsciiCase s "Midtown" then some .Midtown
  else if eqIgnoreAsciiCase s "Kornmarken" then some .Kornmarken
  else if eqIgnoreAsciiCase s "Oestergade" then some .Oestergade
  else none

/-- The per-building path segment of `building_to_url` (`src/main.rs:101-113`). -/
def buildingPath : Building → String
  | .Aastvej => "aastvej"
  | .Multihuset => "multihuset"
  | .Havremarken => "havremarken"
  | .KIRKBI => "kloeverblomsten-kirkbi"
  | .Midtown => "midtown"
  | .Kornmarken => "kornmarken"
  | .Oestergade => "kantine-oestergade"

/-- `building_to_url` (`src/main.rs:101-113`): join the fixed host and the
path segment with `"/"`.  `Url::parse` succeeds on each of the seven
resulting strings and returns them unchanged, so a URL is modelled by its
string. -/
def building_to_url (b : Building) : String :=
  String.intercalate "/" ["https://lego.isscatering.dk", buildingPath b]

/-- strum `Display` of the `Building` in `src/lunch.rs`
(`serialize_all = "kebab-case"`, with explicit overrides
`kloeverblomsten-kirkbi` for `KIRKBI` and `kantine-oestergade` for
`Oestergade`). -/
def buildingDisplay : Building → String
  | .Aastvej => "aastvej"
  | .Multihuset => "multihuset"
  | .Havremarken => "havremarken"
  | .KIRKBI => "kloeverblomsten-kirkbi"
  | .Midtown => "midtown"
  | .Kornmarken => "kornmarken"
  | .Oestergade => "kantine-oestergade"

/-! ## The network boundary and the two `get_lunch` entry points -/

/-- Outcome of one HTTP GET: a transport-level failure (connection or body
read), or a received response with its status code and body (the body given
as its HTML parse tree, `Html::parse_document` being total). -/
inductive FetchOutcome where
  | transportError (status : Nat) (msg : String)
  | response (status : Nat) (bodyDoc : Node)

/-- Result of `get_lunch` in `src/lunch.rs`: a propagated fetch error, a
panic (from `scrape_lunch`), or the markdown string. -/
inductive GetLunchResult where
  | fetchError (msg : String)
  | panicked (msg : String)
  | ok (markdown : String)
deriving DecidableEq, Repr

/-- The URL built by `get_lunch` in `src/lunch.rs:22`:
`format!("https://lego.isscatering.dk/{}", building.to_string())`. -/
def lunchUrl (b : Building) : String :=
  "https://lego.isscatering.dk/" ++ buildingDisplay b

/-- `get_lunch` (`src/lunch.rs:21-29`) against a network `net`: build the URL,
fetch it once (`?` propagates transport errors; the status code of a received
response is never inspected), parse the body, scrape, render.  The second
component counts the HTTP fetches performed. -/
def get_lunch (building : Building) (net : String → FetchOutcome) :
    GetLunchResult × Nat :=
  match net (lunchUrl building) with
  | .transportError _ m => (.fetchError m, 1)
  | .response _ doc =>
    match scrape_lunch doc with
    | .panic m => (.panicked m, 1)
    | .ok lunch => (.ok (lunch_to_markdown lunch), 1)

/-! ## The Mattermost payload (`src/mattermost.rs`, `src/main.rs:217-229`) -/

/-- `MattermostResponseType`. -/
inductive MattermostResponseType where
  | InChannel
  | Ephemeral
deriving DecidableEq, Repr

/-- serde serialization of the variant names under
`#[serde(rename_all = "snake_case")]`. -/
def MattermostResponseType.serialized : MattermostResponseType → String
  | .InChannel => "in_channel"
  | .Ephemeral => "ephemeral"

/-- `MattermostCommandResponse`: the two-field payload `{text, response_type}`. -/
structure MattermostCommandResponse where
  text : String
  response_type : MattermostResponseType
deriving DecidableEq, Repr

/-- `MattermostCommandResponse::in_channel` (`src/mattermost.rs:20-25`). -/
def MattermostCommandResponse.in_channel (markdown : String) :
    MattermostCommandResponse :=
  { text := markdown, response_type := .InChannel }

/-- Result of the HTTP handler `lunch::get_lunch` in `src/main.rs`: a tide
error response (status and message, from `?`), a panic (from
`scrape_lunch`), or a built response with status and JSON payload. -/
inductive HandlerResult where
  | err (status : Nat) (msg : String)
  | panicked (msg : String)
  | ok (status : Nat) (payload : MattermostCommandResponse)
deriving DecidableEq, Repr

namespace Main

/-- The HTTP handler `lunch::get_lunch` (`src/main.rs:125-156`):
`req.url().path_segments()` (`none` for path-less URLs → 400 "path needed"),
its first segment (→ 400 "path param missing"), `Building::from_str`
(→ 400 "bad path param"), `building_to_url`, one `surf::get` (transport
errors propagated by `?` with their status and message; the status of a
received response is never inspected), `Html::parse_document`,
`scrape_lunch` (panics propagate), `lunch_to_markdown`, and the 200 response
whose body is the JSON of the in-channel `MattermostCommandResponse`.  The
second component counts the HTTP fetches performed. -/
def get_lunch (pathSegments : Option (List String))
    (net : String → FetchOutcome) : HandlerResult × Nat :=
  match pathSegments with
  | none => (.err 400 "path needed", 0)
  | some segs =>
    match segs.head? with
    | none => (.err 400 "path param missing", 0)
    | some building =>
      match Building.from_str building with
      | none => (.err 400 "bad path param", 0)
      | some b =>
        match net (building_to_url b) with
        | .transportError st m => (.err st m, 1)
        | .response _ doc =>
          match scrape_lunch doc with
          | .panic m => (.panicked m, 1)
          | .ok lunch =>
            (.ok 200 (MattermostCommandResponse.in_channel
              (lunch_to_markdown lunch)), 1)

end Main

/-! ## Helper lemmas -/

/-- The element at the head of a `dropWhile p` residue fails `p`. -/
theorem dropWhile_eq_cons_not {α : Type} (p : α → Bool) (l : List α) (a : α)
    (t : List α) (h : List.dropWhile p l = a :: t) : p a = false := by
  induction l with
  | nil => simp [List.dropWhile] at h
  | cons b bs ih =>
    rw [List.dropWhile_cons] at h
    by_cases hb : p b = true
    · rw [if_pos hb] at h
      exact ih h
    · rw [if_neg hb] at h
      injection h with h1 _
      subst h1
      simpa using hb

/-- A trim-start result is stable under a further trim-start after trim-end:
`rdropWhile p (dropWhile p l)` has no leading `p`-element left to drop. -/
theorem dropWhile_rdropWhile {α : Type} (p : α → Bool) (l : List α) :
    List.dropWhile p (List.rdropWhile p (List.dropWhile p l)) =
      List.rdropWhile p (List.dropWhile p l) := by
  rcases hr : List.rdropWhile p (List.dropWhile p l) with _ | ⟨a, t⟩
  · rfl
  · have hpre := List.rdropWhile_prefix p (List.dropWhile p l)
    rw [hr] at hpre
    rcases hpre with ⟨rest, hd⟩
    have hcons : List.dropWhile p l = a :: (t ++ rest) := by
      rw [← hd]; simp
    have hpa := dropWhile_eq_cons_not p l a (t ++ rest) hcons
    simp [List.dropWhile_cons, hpa]

/-- Rust `trim` is idempotent. -/
theorem rustTrim_idem (s : String) : rustTrim (rustTrim s) = rustTrim s := by
  show String.mk (trimChars (trimChars s.data)) = String.mk (trimChars s.data)
  unfold trimChars
  rw [dropWhile_rdropWhile, List.rdropWhile_idempotent]

/-- Rust `trim` of a whitespace-only string is empty. -/
theorem rustTrim_eq_empty (s : String)
    (h : ∀ c ∈ s.data, isRustWhitespace c = true) : rustTrim s = "" := by
  show String.mk (trimChars s.data) = ""
  unfold trimChars
  rw [List.dropWhile_eq_nil_iff.mpr (by simpa using h), List.rdropWhile_nil]

/-- Success-path inversion for `scrape_lunch`: an `ok` result means the three
selectors matched, the three first text runs existed, and the record is built
from their trims. -/
theorem scrape_lunch_ok_shape (html : Node) (l : Lunch)
    (h : scrape_lunch html = .ok l) :
    ∃ n2 t2 n4 t4 n6 t6,
      selectFirst 2 html = some n2 ∧ firstText n2 = some t2 ∧
      selectFirst 4 html = some n4 ∧ firstText n4 = some t4 ∧
      selectFirst 6 html = some n6 ∧ firstText n6 = some t6 ∧
      l = { varm_ret := rustTrim t2, vegetar := rustTrim t4, salat := rustTrim t6 } := by
  obtain ⟨lv, lg, ls⟩ := l
  unfold scrape_lunch at h
  rcases h2 : selectFirst 2 html with _ | n2 <;> rw [h2] at h <;>
    simp only [unwrapOpt, PanicOr.bind] at h
  · exact absurd h (by simp)
  rcases ht2 : firstText n2 with _ | t2 <;> rw [ht2] at h <;>
    simp only [unwrapOpt, PanicOr.bind] at h
  · exact absurd h (by simp)
  rcases h4 : selectFirst 4 html with _ | n4 <;> rw [h4] at h <;>
    simp only [unwrapOpt, PanicOr.bind] at h
  · exact absurd h (by simp)
  rcases ht4 : firstText n4 with _ | t4 <;> rw [ht4] at h <;>
    simp only [unwrapOpt, PanicOr.bind] at h
  · exact absurd h (by simp)
  rcases h6 : selectFirst 6 html with _ | n6 <;> rw [h6] at h <;>
    simp only [unwrapOpt, PanicOr.bind] at h
  · exact absurd h (by simp)
  rcases ht6 : firstText n6 with _ | t6 <;> rw [ht6] at h <;>
    simp only [unwrapOpt, PanicOr.bind] at h
  · exact absurd h (by simp)
  obtain ⟨e1, e2, e3⟩ : rustTrim t2 = lv ∧ rustTrim t4 = lg ∧ rustTrim t6 = ls := by
    simpa using h
  subst e1; subst e2; subst e3
  exact ⟨n2, t2, n4, t4, n6, t6, rfl, ht2, rfl, ht4, rfl, ht6, rfl⟩

/-- ASCII lower-casings of the seven variant identifiers. -/
theorem asciiLower_Aastvej : asciiLower "Aastvej" = "aastvej" := by decide

/-- ASCII lower-casing of `"Multihuset"`. -/
theorem asciiLower_Multihuset : asciiLower "Multihuset" = "multihuset" := by decide

/-- ASCII lower-casing of `"Havremarken"`. -/
theorem asciiLower_Havremarken : asciiLower "Havremarken" = "havremarken" := by decide

/-- ASCII lower-casing of `"KIRKBI"`. -/
theorem asciiLower_KIRKBI : asciiLower "KIRKBI" = "kirkbi" := by decide

/-- ASCII lower-casing of `"Midtown"`. -/
theorem asciiLower_Midtown : asciiLower "Midtown" = "midtown" := by decide

/-- ASCII lower-casing of `"Kornmarken"`. -/
theorem asciiLower_Kornmarken : asciiLower "Kornmarken" = "kornmarken" := by decide

/-- ASCII lower-casing of `"Oestergade"`. -/
theorem asciiLower_Oestergade : asciiLower "Oestergade" = "oestergade" := by decide

/-! ## Claim theorems -/

/-- Claim C1, counterexample: on a page whose 2nd menu row has no 2nd cell the
selector finds nothing, and `scrape_lunch` does not return a "menu field not
found" error — it panics (an unrecoverable crash, `Option::unwrap` on `None`),
contradicting the claim that the failure is a returned error and not a crash. -/
theorem claim1_counterexample :
    selectFirst 2 pageMissing2 = none ∧
    scrape_lunch pageMissing2 = .panic unwrapMsg :=
  ⟨rfl, by decide⟩

/-- Claim C1, amended: for each of the three addressed positions
independently, if the node is absent `scrape_lunch` fails unrecoverably with
an `Option::unwrap` panic — not a success and not a returned error value (its
result type has no error channel). -/
theorem claim1_amended :
    (∀ html : Node, selectFirst 2 html = none →
      scrape_lunch html = .panic unwrapMsg) ∧
    (∀ (html n2 : Node) (t2 : String), selectFirst 2 html = some n2 →
      firstText n2 = some t2 → selectFirst 4 html = none →
      scrape_lunch html = .panic unwrapMsg) ∧
    (∀ (html n2 n4 : Node) (t2 t4 : String), selectFirst 2 html = some n2 →
      firstText n2 = some t2 → selectFirst 4 html = some n4 →
      firstText n4 = some t4 → selectFirst 6 html = none →
      scrape_lunch html = .panic unwrapMsg) := by
  refine ⟨?_, ?_, ?_⟩
  · intro html h
    simp [scrape_lunch, h, unwrapOpt, PanicOr.bind]
  · intro html n2 t2 h2 ht2 h4
    simp [scrape_lunch, h2, ht2, h4, unwrapOpt, PanicOr.bind]
  · intro html n2 n4 t2 t4 h2 ht2 h4 ht4 h6
    simp [scrape_lunch, h2, ht2, h4, ht4, h6, unwrapOpt, PanicOr.bind]

/-- Claim C1, witness: the amended statement applied to three concrete pages,
each missing exactly one of the three addressed cells. -/
theorem claim1_witness :
    scrape_lunch pageMissing2 = .panic unwrapMsg ∧
    scrape_lunch pageMissing4 = .panic unwrapMsg ∧
    scrape_lunch pageMissing6 = .panic unwrapMsg :=
  ⟨claim1_amended.1 pageMissing2 (by rfl),
   claim1_amended.2.1 pageMissing4 (cell "Braiseret svinekæber med rodfrugter")
     "Braiseret svinekæber med rodfrugter" (by rfl) (by rfl) (by rfl),
   claim1_amended.2.2 pageMissing6 (cell "Braiseret svinekæber med rodfrugter")
     (cell "Gnocchi med ratatouille.") "Braiseret svinekæber med rodfrugter"
     "Gnocchi med ratatouille." (by rfl) (by rfl) (by rfl) (by rfl) (by rfl)⟩

/-- Claim C2: `lunch_to_markdown` is pure and total and renders the fixed
template with the fields substituted verbatim and no trailing newline; on
fields "A", "B", "C" it yields the exact expected string, and empty fields
are rendered too. -/
theorem claim2_render :
    (∀ lunch : Lunch, lunch_to_markdown lunch =
      "##### Varm ret\n  " ++ lunch.varm_ret ++ "\n##### Vegetar\n  " ++
        lunch.vegetar ++ "\n##### Salat\n  " ++ lunch.salat) ∧
    lunch_to_markdown { varm_ret := "A", vegetar := "B", salat := "C" } =
      "##### Varm ret\n  A\n##### Vegetar\n  B\n##### Salat\n  C" ∧
    lunch_to_markdown { varm_ret := "", vegetar := "", salat := "" } =
      "##### Varm ret\n  \n##### Vegetar\n  \n##### Salat\n  " := by
  refine ⟨?_, by decide, by decide⟩
  intro lunch
  apply String.ext
  simp [lunch_to_markdown, String.data_append]

set_option maxRecDepth 8000 in
/-- Claim C3, counterexample: a non-success HTTP status is not a fetch
failure for `get_lunch` — on a 500 response carrying a well-formed page the
function succeeds instead of returning a fetch error, contradicting the claim
that failure includes non-success statuses. -/
theorem claim3_counterexample :
    get_lunch Building.Aastvej (fun _ => .response 500 fixturePage) =
      (.ok (lunch_to_markdown fixtureLunch), 1) := by decide

/-- Claim C3, amended: `get_lunch` fails with a fetch error exactly when the
transport-level fetch fails, propagating the error; the status code of a
received response is never inspected (the result only depends on the body),
and exactly one fetch is attempted in every case. -/
theorem claim3_amended :
    (∀ (b : Building) (net : String → FetchOutcome) (st : Nat) (m : String),
      net (lunchUrl b) = .transportError st m →
      get_lunch b net = (.fetchError m, 1)) ∧
    (∀ (b : Building) (net net2 : String → FetchOutcome) (st st2 : Nat)
        (doc : Node),
      net (lunchUrl b) = .response st doc →
      net2 (lunchUrl b) = .response st2 doc →
      get_lunch b net = get_lunch b net2) ∧
    (∀ (b : Building) (net : String → FetchOutcome), (get_lunch b net).2 = 1) := by
  refine ⟨?_, ?_, ?_⟩
  · intro b net st m h
    simp [get_lunch, h]
  · intro b net net2 st st2 doc h1 h2
    simp [get_lunch, h1, h2]
  · intro b net
    rcases h : net (lunchUrl b) with ⟨st, m⟩ | ⟨st, doc⟩
    · simp [get_lunch, h]
    · rcases hs : scrape_lunch doc with m | lunch <;> simp [get_lunch, h, hs]

/-- Claim C3, witness: the amended statement applied to a concrete transport
failure. -/
theorem claim3_witness :
    get_lunch Building.Kornmarken
      (fun _ => .transportError 502 "connection refused") =
      (.fetchError "connection refused", 1) :=
  claim3_amended.1 Building.Kornmarken
    (fun _ => .transportError 502 "connection refused") 502
    "connection refused" rfl

/-- Claim C4: `building_to_url` maps each of the seven buildings to the fixed
host joined with "/" and its fixed path segment (KIRKBI to
kloeverblomsten-kirkbi, Oestergade to kantine-oestergade); the lookup is
total, with no error path. -/
theorem claim4_resolve :
    (∀ b : Building, building_to_url b =
      "https://lego.isscatering.dk" ++ "/" ++ buildingPath b) ∧
    building_to_url .Aastvej = "https://lego.isscatering.dk/aastvej" ∧
    building_to_url .Multihuset = "https://lego.isscatering.dk/multihuset" ∧
    building_to_url .Havremarken = "https://lego.isscatering.dk/havremarken" ∧
    building_to_url .KIRKBI = "https://lego.isscatering.dk/kloeverblomsten-kirkbi" ∧
    building_to_url .Midtown = "https://lego.isscatering.dk/midtown" ∧
    building_to_url .Kornmarken = "https://lego.isscatering.dk/kornmarken" ∧
    building_to_url .Oestergade = "https://lego.isscatering.dk/kantine-oestergade" :=
  ⟨fun b => by cases b <;> decide, by decide, by decide, by decide, by decide,
   by decide, by decide, by decide⟩

/-- Claim C5: a building string that does not parse (ASCII-case-insensitively)
to a member of the enumeration is rejected with a 400 client error before any
network fetch: the handler performs zero fetches. -/
theorem claim5_reject_before_fetch (s : String) (rest : List String)
    (net : String → FetchOutcome) (h : Building.from_str s = none) :
    Main.get_lunch (some (s :: rest)) net = (.err 400 "bad path param", 0) := by
  simp [Main.get_lunch, h]

/-- Claim C5, witness: the rejection theorem applied to the concrete
unrecognized identifier "cafeteria". -/
theorem claim5_witness :
    Building.from_str "cafeteria" = none ∧
    Main.get_lunch (some ["cafeteria", "lunch"])
      (fun _ => .response 200 fixturePage) = (.err 400 "bad path param", 0) :=
  ⟨by decide, claim5_reject_before_fetch "cafeteria" ["lunch"]
    (fun _ => .response 200 fixturePage) (by decide)⟩

/-- Claim C6: building parsing is ASCII-case-insensitive — every string that
equals a variant identifier up to ASCII case parses to that building, and in
particular "aastvej", "Aastvej" and "AASTVEJ" all parse to `Aastvej`, which
resolves to the single URL for that building. -/
theorem claim6_case_insensitive :
    (∀ (b : Building) (s : String),
      eqIgnoreAsciiCase s (variantName b) = true →
      Building.from_str s = some b) ∧
    (Building.from_str "aastvej" = some .Aastvej ∧
     Building.from_str "Aastvej" = some .Aastvej ∧
     Building.from_str "AASTVEJ" = some .Aastvej) ∧
    building_to_url .Aastvej = "https://lego.isscatering.dk/aastvej" := by
  refine ⟨?_, ⟨by decide, by decide, by decide⟩, by decide⟩
  intro b s h
  have h' : asciiLower s = asciiLower (variantName b) := by
    simpa [eqIgnoreAsciiCase] using h
  cases b <;>
    simp_all [variantName, Building.from_str, eqIgnoreAsciiCase,
      asciiLower_Aastvej, asciiLower_Multihuset, asciiLower_Havremarken,
      asciiLower_KIRKBI, asciiLower_Midtown, asciiLower_Kornmarken,
      asciiLower_Oestergade]

/-- Claim C6, witness: the case-insensitivity theorem applied to the concrete
input "kirkbi" for the variant identifier "KIRKBI". -/
theorem claim6_witness :
    eqIgnoreAsciiCase "kirkbi" (variantName Building.KIRKBI) = true ∧
    Building.from_str "kirkbi" = some Building.KIRKBI :=
  ⟨by decide, claim6_case_insensitive.1 Building.KIRKBI "kirkbi" (by decide)⟩

/-- Claim C7: on a page where all three addressed nodes are present and hold
text, `scrape_lunch` returns the first text run of each node with surrounding
whitespace trimmed; on the fixture page it returns exactly the three known
dish strings. -/
theorem claim7_extract :
    (∀ (html n2 n4 n6 : Node) (t2 t4 t6 : String),
      selectFirst 2 html = some n2 → firstText n2 = some t2 →
      selectFirst 4 html = some n4 → firstText n4 = some t4 →
      selectFirst 6 html = some n6 → firstText n6 = some t6 →
      scrape_lunch html =
        .ok { varm_ret := rustTrim t2, vegetar := rustTrim t4
            , salat := rustTrim t6 }) ∧
    scrape_lunch fixturePage = .ok fixtureLunch := by
  refine ⟨?_, by decide⟩
  intro html n2 n4 n6 t2 t4 t6 h2 ht2 h4 ht4 h6 ht6
  simp [scrape_lunch, h2, ht2, h4, ht4, h6, ht6, unwrapOpt, PanicOr.bind]

/-- Claim C7, witness: the extraction theorem applied to the fixture page and
its three raw (untrimmed) first text runs. -/
theorem claim7_witness :
    scrape_lunch fixturePage =
      .ok { varm_ret := rustTrim "\n  Braiseret svinekæber med rodfrugter  "
          , vegetar := rustTrim "\n  Gnocchi med ratatouille.  "
          , salat := rustTrim
              "\n  Romaine salat med bagte blommer, hvedekerner, løg og salatost.  " } :=
  claim7_extract.1 fixturePage
    (cell "\n  Braiseret svinekæber med rodfrugter  ")
    (cell "\n  Gnocchi med ratatouille.  ")
    (cell "\n  Romaine salat med bagte blommer, hvedekerner, løg og salatost.  ")
    "\n  Braiseret svinekæber med rodfrugter  "
    "\n  Gnocchi med ratatouille.  "
    "\n  Romaine salat med bagte blommer, hvedekerner, løg og salatost.  "
    (by rfl) (by rfl) (by rfl) (by rfl) (by rfl) (by rfl)

/-- Claim C8: every successful request returns status 200 with the two-field
payload holding the rendered markdown verbatim and the in-channel response
type, whose serde serialization is the snake_case string "in_channel". -/
theorem claim8_payload :
    (∀ (building : String) (rest : List String) (net : String → FetchOutcome)
        (b : Building) (st : Nat) (doc : Node) (lunch : Lunch),
      Building.from_str building = some b →
      net (building_to_url b) = .response st doc →
      scrape_lunch doc = .ok lunch →
      Main.get_lunch (some (building :: rest)) net =
        (.ok 200 { text := lunch_to_markdown lunch
                 , response_type := .InChannel }, 1)) ∧
    (∀ (segs : Option (List String)) (net : String → FetchOutcome)
        (st : Nat) (payload : MattermostCommandResponse) (n : Nat),
      Main.get_lunch segs net = (.ok st payload, n) →
      st = 200 ∧ payload.response_type = .InChannel ∧ n = 1) ∧
    MattermostResponseType.serialized .InChannel = "in_channel" := by
  refine ⟨?_, ?_, rfl⟩
  · intro building rest net b st doc lunch hb hn hs
    simp [Main.get_lunch, hb, hn, hs, MattermostCommandResponse.in_channel]
  · intro segs net st payload n h
    rcases segs with _ | l
    · simp [Main.get_lunch] at h
    rcases hh : l.head? with _ | building
    · simp [Main.get_lunch, hh] at h
    rcases hb : Building.from_str building with _ | b
    · simp [Main.get_lunch, hh, hb] at h
    rcases hn : net (building_to_url b) with ⟨st2, m⟩ | ⟨st2, doc⟩
    · simp [Main.get_lunch, hh, hb, hn] at h
    rcases hs : scrape_lunch doc with m | lunch
    · simp [Main.get_lunch, hh, hb, hn, hs] at h
    · simp [Main.get_lunch, hh, hb, hn, hs,
        MattermostCommandResponse.in_channel] at h
      obtain ⟨⟨hst, hp⟩, hn1⟩ := h
      exact ⟨hst.symm, by rw [← hp], hn1.symm⟩

/-- Claim C8, witness: a concrete successful request for "aastvej" against a
network returning the fixture page. -/
theorem claim8_witness :
    Main.get_lunch (some ["aastvej", "lunch"])
      (fun _ => .response 200 fixturePage) =
      (.ok 200 { text := lunch_to_markdown fixtureLunch
               , response_type := .InChannel }, 1) :=
  claim8_payload.1 "aastvej" ["lunch"]
    (fun _ => .response 200 fixturePage) Building.Aastvej 200
    fixturePage fixtureLunch (by decide) rfl (by decide)

/-- Claim C9, counterexample: on a page whose 2nd addressed node is present
but holds no text, `scrape_lunch` does not return a "menu field not found"
error — it panics (`Option::unwrap` on the empty text iterator), an
unrecoverable crash, contradicting the claim that the failure would be a
returned error. -/
theorem claim9_counterexample :
    selectFirst 2 pageNoText2 = some (.elem "div" [] .nil) ∧
    firstText (.elem "div" [] .nil) = none ∧
    scrape_lunch pageNoText2 = .panic unwrapMsg :=
  ⟨rfl, rfl, by decide⟩

/-- Claim C9, amended: for each of the three addressed positions
independently, a located node with no text makes `scrape_lunch` fail
unrecoverably with an `Option::unwrap` panic (not a returned error); on the
success path the returned record always carries all three fields, each the
trim of a found text run. -/
theorem claim9_amended :
    (∀ (html n2 : Node), selectFirst 2 html = some n2 →
      firstText n2 = none → scrape_lunch html = .panic unwrapMsg) ∧
    (∀ (html n2 n4 : Node) (t2 : String), selectFirst 2 html = some n2 →
      firstText n2 = some t2 → selectFirst 4 html = some n4 →
      firstText n4 = none → scrape_lunch html = .panic unwrapMsg) ∧
    (∀ (html n2 n4 n6 : Node) (t2 t4 : String), selectFirst 2 html = some n2 →
      firstText n2 = some t2 → selectFirst 4 html = some n4 →
      firstText n4 = some t4 → selectFirst 6 html = some n6 →
      firstText n6 = none → scrape_lunch html = .panic unwrapMsg) ∧
    (∀ (html : Node) (l : Lunch), scrape_lunch html = .ok l →
      ∃ t2 t4 t6 : String,
        l = { varm_ret := rustTrim t2, vegetar := rustTrim t4
            , salat := rustTrim t6 }) := by
  refine ⟨?_, ?_, ?_, ?_⟩
  · intro html n2 h2 ht2
    simp [scrape_lunch, h2, ht2, unwrapOpt, PanicOr.bind]
  · intro html n2 n4 t2 h2 ht2 h4 ht4
    simp [scrape_lunch, h2, ht2, h4, ht4, unwrapOpt, PanicOr.bind]
  · intro html n2 n4 n6 t2 t4 h2 ht2 h4 ht4 h6 ht6
    simp [scrape_lunch, h2, ht2, h4, ht4, h6, ht6, unwrapOpt, PanicOr.bind]
  · intro html l h
    obtain ⟨n2, t2, n4, t4, n6, t6, -, -, -, -, -, -, hl⟩ :=
      scrape_lunch_ok_shape html l h
    exact ⟨t2, t4, t6, hl⟩

/-- Claim C9, witness: the amended statement applied to the concrete textless
page and, for the success-path part, to the fixture page. -/
theorem claim9_witness :
    scrape_lunch pageNoText2 = .panic unwrapMsg ∧
    (∃ t2 t4 t6 : String, fixtureLunch =
      { varm_ret := rustTrim t2, vegetar := rustTrim t4
      , salat := rustTrim t6 }) :=
  ⟨claim9_amended.1 pageNoText2 (.elem "div" [] .nil) (by rfl) (by rfl),
   claim9_amended.2.2.2 fixturePage fixtureLunch (by decide)⟩

/-- Claim C10: when each addressed node is present and its first text run is
whitespace-only, `scrape_lunch` succeeds with all three fields equal to the
empty string; moreover every field of every record `scrape_lunch` returns is
trim-stable, i.e. free of leading and trailing whitespace. -/
theorem claim10_whitespace :
    (∀ (html n2 n4 n6 : Node) (t2 t4 t6 : String),
      selectFirst 2 html = some n2 → firstText n2 = some t2 →
      selectFirst 4 html = some n4 → firstText n4 = some t4 →
      selectFirst 6 html = some n6 → firstText n6 = some t6 →
      (∀ c ∈ t2.data, isRustWhitespace c = true) →
      (∀ c ∈ t4.data, isRustWhitespace c = true) →
      (∀ c ∈ t6.data, isRustWhitespace c = true) →
      scrape_lunch html = .ok { varm_ret := "", vegetar := "", salat := "" }) ∧
    (∀ (html : Node) (l : Lunch), scrape_lunch html = .ok l →
      rustTrim l.varm_ret = l.varm_ret ∧ rustTrim l.vegetar = l.vegetar ∧
        rustTrim l.salat = l.salat) := by
  constructor
  · intro html n2 n4 n6 t2 t4 t6 h2 ht2 h4 ht4 h6 ht6 w2 w4 w6
    simp [scrape_lunch, h2, ht2, h4, ht4, h6, ht6, unwrapOpt, PanicOr.bind,
      rustTrim_eq_empty t2 w2, rustTrim_eq_empty t4 w4, rustTrim_eq_empty t6 w6]
  · intro html l h
    obtain ⟨n2, t2, n4, t4, n6, t6, -, -, -, -, -, -, hl⟩ :=
      scrape_lunch_ok_shape html l h
    subst hl
    exact ⟨rustTrim_idem t2, rustTrim_idem t4, rustTrim_idem t6⟩

/-- Claim C10, witness: the theorem applied to the concrete page whose three
addressed cells hold whitespace-only text. -/
theorem claim10_witness :
    scrape_lunch pageWhitespace =
      .ok { varm_ret := "", vegetar := "", salat := "" } :=
  claim10_whitespace.1 pageWhitespace (cell "  \n\t ") (cell " ") (cell "\n\n")
    "  \n\t " " " "\n\n" (by rfl) (by rfl) (by rfl) (by rfl) (by rfl) (by rfl)
    (by decide) (by decide) (by decide)
